import Mathlib

/-!
AsyncHTTPServer: WebSocket upgrade handshake and connection lifecycle loop.

A shallow embedding of `src/AsyncHTTPServer.hh` (`HTTPRequest`, `HTTPResponse`,
`HTTPClient`, `HTTPServerLimits`, `AsyncHTTPServer::enable_websockets`,
`AsyncHTTPServer::handle_client`) together with theorems about the handshake,
the keep-alive decision, error recovery and the idle watchdog.

Conventions of the embedding:

* `std::string` values that carry text are Lean strings; their bytes are the
  UTF-8 encoding. Binary strings (the SHA-1 digest) are lists of byte values.
* `std::unordered_multimap<std::string, std::string>` is a list of key/value
  pairs; only membership and the number of entries per key are ever used.
* Thrown C++ objects are values of `Exn`, which tells those derived from
  `std::exception` from the others; code that can throw returns the state
  reached together with `Except Exn _`, so that the effects performed before a
  throw stay visible.
* `size_t` is 64 bits wide and the count of `std::chrono::microseconds` is a
  signed 64-bit integer.
* The coroutine `handle_client` is embedded as its loop body
  (`handle_client_iteration`) applied to the unit that the receive call of the
  iteration returned, and a driver over a finite sequence of received units.
-/

namespace AsyncHTTP

/-! ## Message model -/

/-- The enumeration `HTTPRequest::Method`. -/
inductive Method where
  | GET
  | POST
  | DELETE
  | HEAD
  | PATCH
  | PUT
  | UPDATE
  | OPTIONS
  | CONNECT
  | TRACE
  deriving DecidableEq, Repr

/-- The struct `HTTPRequest`. Header names are stored in lowercase by the parser. -/
structure HTTPRequest where
  http_version : String
  method : Method
  path : String
  fragment : String
  headers : List (String × String)
  query_params : List (String × String)
  data : String
  deriving DecidableEq, Repr

/-- The struct `HTTPResponse`; `response_code` defaults to 200. -/
structure HTTPResponse where
  http_version : String := ""
  response_code : Int := 200
  headers : List (String × String) := []
  data : String := ""
  deriving DecidableEq, Repr

/-- The struct `WebSocketMessage`. -/
structure WebSocketMessage where
  header : Nat × Nat := (0, 0)
  opcode : Nat := 0x01
  mask_key : List Nat := [0, 0, 0, 0]
  data : String := ""
  deriving DecidableEq, Repr

/-- Objects that C++ code can throw: an exception derived from `std::exception`, carrying its
`what()` text; `HTTPError`, which derives from `std::runtime_error` and adds a status code; and
an object of any other type (`throw 42;`, a class outside the `std::exception` hierarchy),
identified by a description. -/
inductive Exn where
  | std_exception (what : String)
  | HTTPError (code : Int) (what : String)
  | other (description : String)
  deriving DecidableEq, Repr

deriving instance DecidableEq for Except

/-- The handler `catch (const std::exception& e)`: for a thrown object derived from
`std::exception` the text of `e.what()`, and `none` for an object the handler does not catch. -/
def Exn.std_what : Exn → Option String
  | .std_exception w => some w
  | .HTTPError _ w => some w
  | .other _ => none

/-- Values stored under `name` in a multimap (the `equal_range` of the key). -/
def values_for (headers : List (String × String)) (name : String) : List String :=
  (headers.filter (fun kv => kv.1 == name)).map (fun kv => kv.2)

/-- Modelled from the spec: the message text of the error thrown by `get_header` for a
repeated header is not in the sources; no theorem depends on its content. -/
def multiple_values_what (name : String) : String :=
  "Multiple values for header: " ++ name

/-- Modelled from the spec: the body of `HTTPRequest::get_header` is not in the sources. Its
declaration documents it: "Returns nullptr if the header doesn't exist; throws http_error(400)
if multiple instances of it exist." -/
def HTTPRequest.get_header (req : HTTPRequest) (name : String) : Except Exn (Option String) :=
  match values_for req.headers name with
  | [] => .ok none
  | [v] => .ok (some v)
  | _ :: _ :: _ => .error (.HTTPError 400 (multiple_values_what name))

/-! ## Library functions used by the handshake (phosg) -/

/-- The function `phosg::tolower` on strings: every character goes through C `tolower`, which
maps `A`..`Z` to `a`..`z` and leaves every other byte alone. -/
def tolower (s : String) : String :=
  String.mk (s.data.map Char.toLower)

/-- UTF-8 bytes of one character, as numbers below 256. -/
def char_bytes (c : Char) : List Nat :=
  let v := c.toNat
  if v < 0x80 then [v]
  else if v < 0x800 then [0xC0 + v / 0x40, 0x80 + v % 0x40]
  else if v < 0x10000 then [0xE0 + v / 0x1000, 0x80 + v / 0x40 % 0x40, 0x80 + v % 0x40]
  else [0xF0 + v / 0x40000, 0x80 + v / 0x1000 % 0x40, 0x80 + v / 0x40 % 0x40, 0x80 + v % 0x40]

/-- The bytes held by a `std::string` with the given text. -/
def string_bytes (s : String) : List Nat :=
  s.data.flatMap char_bytes

/-- Rotate a 32-bit word left by `n` bits (`0 < n < 32`). -/
def rotl32 (x n : Nat) : Nat :=
  ((x <<< n) ||| (x >>> (32 - n))) % 2 ^ 32

/-- Big-endian bytes of `x`, `n` of them. -/
def be_bytes : Nat → Nat → List Nat
  | 0, _ => []
  | n + 1, x => (x >>> (8 * n)) % 256 :: be_bytes n x

/-- Big-endian value of a list of bytes. -/
def be_value (bs : List Nat) : Nat :=
  bs.foldl (fun acc b => acc * 256 + b) 0

/-- SHA-1 padding: a 0x80 byte, zeros up to 56 modulo 64, then the bit length on 8 bytes. -/
def sha1_pad (msg : List Nat) : List Nat :=
  msg ++ [0x80] ++ List.replicate ((119 - msg.length % 64) % 64) 0 ++ be_bytes 8 (8 * msg.length)

/-- Split into `n` consecutive groups of `k` elements. -/
def groups (k : Nat) : Nat → List Nat → List (List Nat)
  | 0, _ => []
  | n + 1, l => l.take k :: groups k n (l.drop k)

/-- The 80-word message schedule of one 64-byte block. -/
def sha1_schedule (block : List Nat) : List Nat :=
  (List.range 64).foldl
    (fun w i =>
      w ++ [rotl32 (w.getD (i + 13) 0 ^^^ w.getD (i + 8) 0 ^^^ w.getD (i + 2) 0 ^^^ w.getD i 0) 1])
    ((groups 4 16 block).map be_value)

/-- The round function and constant of round `t`. -/
def sha1_f (t b c d : Nat) : Nat × Nat :=
  if t < 20 then ((b &&& c) ||| ((b ^^^ 0xFFFFFFFF) &&& d), 0x5A827999)
  else if t < 40 then (b ^^^ c ^^^ d, 0x6ED9EBA1)
  else if t < 60 then ((b &&& c) ||| (b &&& d) ||| (c &&& d), 0x8F1BBCDC)
  else (b ^^^ c ^^^ d, 0xCA62C1D6)

/-- The five chaining words. -/
structure SHA1State where
  h0 : Nat
  h1 : Nat
  h2 : Nat
  h3 : Nat
  h4 : Nat

/-- One round of the compression function. -/
def sha1_round (w : List Nat) (s : SHA1State) (t : Nat) : SHA1State :=
  let fk := sha1_f t s.h1 s.h2 s.h3
  { h0 := (rotl32 s.h0 5 + fk.1 + s.h4 + fk.2 + w.getD t 0) % 2 ^ 32
    h1 := s.h0
    h2 := rotl32 s.h1 30
    h3 := s.h2
    h4 := s.h3 }

/-- Compression of one block into the chaining state. -/
def sha1_block (s : SHA1State) (block : List Nat) : SHA1State :=
  let r := (List.range 80).foldl (sha1_round (sha1_schedule block)) s
  { h0 := (s.h0 + r.h0) % 2 ^ 32
    h1 := (s.h1 + r.h1) % 2 ^ 32
    h2 := (s.h2 + r.h2) % 2 ^ 32
    h3 := (s.h3 + r.h3) % 2 ^ 32
    h4 := (s.h4 + r.h4) % 2 ^ 32 }

/-- The function `phosg::SHA1(data).bin()`: the 20-byte SHA-1 digest (FIPS 180-4). -/
def SHA1 (data : List Nat) : List Nat :=
  let padded := sha1_pad data
  let s := (groups 64 (padded.length / 64) padded).foldl sha1_block
    { h0 := 0x67452301, h1 := 0xEFCDAB89, h2 := 0x98BADCFE, h3 := 0x10325476, h4 := 0xC3D2E1F0 }
  be_bytes 4 s.h0 ++ be_bytes 4 s.h1 ++ be_bytes 4 s.h2 ++ be_bytes 4 s.h3 ++ be_bytes 4 s.h4

/-- The base64 alphabet of RFC 4648. -/
def base64_alphabet : List Char :=
  "ABCDEFGHIJKLMNOPQRSTUVWXYZabcdefghijklmnopqrstuvwxyz0123456789+/".data

/-- The base64 digit with value `n`. -/
def base64_digit (n : Nat) : Char :=
  base64_alphabet.getD (n % 64) 'A'

/-- Base64 characters of a byte list, three bytes at a time, padded with `=`. -/
def base64_chars : List Nat → List Char
  | [] => []
  | [a] => [base64_digit (a / 4), base64_digit (a % 4 * 16), '=', '=']
  | [a, b] =>
    [base64_digit (a / 4), base64_digit (a % 4 * 16 + b / 16), base64_digit (b % 16 * 4), '=']
  | a :: b :: c :: rest =>
    base64_digit (a / 4) :: base64_digit (a % 4 * 16 + b / 16)
      :: base64_digit (b % 16 * 4 + c / 64) :: base64_digit c :: base64_chars rest

/-- The function `phosg::base64_encode` with the default alphabet. -/
def base64_encode (data : List Nat) : String :=
  String.mk (base64_chars data)

/-! ## Connection state -/

/-- One unit written to the socket: a serialized HTTP response or a WebSocket frame. -/
inductive Written where
  | http_response (resp : HTTPResponse)
  | websocket_frame (opcode : Nat) (data : String)
  deriving DecidableEq, Repr

/-- Modelled from the spec: `AsyncSocketReader` is declared in `AsyncUtils.hh`, which is not in
the sources. Of the reader and its socket the engine uses `get_socket().is_open()`, `close()`
and the writes made through the socket; `written` lists those writes, oldest first. -/
structure AsyncSocketReader where
  socket_is_open : Bool
  written : List Written
  deriving DecidableEq, Repr

/-- Modelled from the spec: `AsyncSocketReader::close` closes the socket; closing a closed
socket changes nothing. -/
def AsyncSocketReader.close (r : AsyncSocketReader) : AsyncSocketReader :=
  { r with socket_is_open := false }

/-- The struct `HTTPClient`. -/
structure HTTPClient where
  r : AsyncSocketReader
  last_communication_time : Nat := 0
  is_websocket : Bool := false
  deriving DecidableEq, Repr

/-- The state `HTTPClient` has from its default member initializers, around a socket that was
just accepted. -/
def HTTPClient.create (r : AsyncSocketReader) : HTTPClient :=
  { r := r }

/-- Modelled from the spec: the body of `HTTPClient::send_http_response` is not in the sources;
it writes the serialized response to the socket and changes nothing else. -/
def HTTPClient.send_http_response (c : HTTPClient) (resp : HTTPResponse) : HTTPClient :=
  { c with r := { c.r with written := c.r.written ++ [.http_response resp] } }

/-- Modelled from the spec: the body of `HTTPClient::send_websocket_message` is not in the
sources; it writes one frame to the socket and changes nothing else. -/
def HTTPClient.send_websocket_message (c : HTTPClient) (data : String) (opcode : Nat) :
    HTTPClient :=
  { c with r := { c.r with written := c.r.written ++ [.websocket_frame opcode data] } }

/-- The struct `HTTPServerLimits` with its default values. -/
structure HTTPServerLimits where
  max_http_request_line_size : Nat := 0x1000
  max_http_data_size : Nat := 0x200000
  max_http_keepalive_idle_usecs : Nat := 300 * 1000 * 1000
  max_websocket_message_size : Nat := 0x200000
  max_websocket_idle_usecs : Nat := 0
  deriving DecidableEq, Repr

/-! ## The WebSocket upgrade handshake -/

/-- The GUID appended to the key by the handshake. -/
def websocket_guid : String :=
  "258EAFA5-E914-47DA-95CA-C5AB0DC85B11"

/-- The local `sec_websocket_accept` of `enable_websockets`, as a function of the header value:
`base64_encode(SHA1(key + "258EAFA5-...").bin())`. -/
def sec_websocket_accept (key : String) : String :=
  base64_encode (SHA1 (string_bytes (key ++ websocket_guid)))

/-- The response built by `enable_websockets`. -/
def upgrade_response (req : HTTPRequest) (key : String) : HTTPResponse :=
  { http_version := req.http_version
    response_code := 101
    headers :=
      [("Upgrade", "websocket"), ("Connection", "upgrade"),
        ("Sec-WebSocket-Accept", sec_websocket_accept key)] }

/-- The method `AsyncHTTPServer::enable_websockets`. The first component is the client after the
call; the second is the value returned, or the exception that left the call. -/
def enable_websockets (c : HTTPClient) (req : HTTPRequest) : HTTPClient × Except Exn Bool :=
  if req.method ≠ Method.GET then (c, .ok false)
  else
    match req.get_header "connection" with
    | .error e => (c, .error e)
    | .ok connection_header =>
      if connection_header.isNone ∨ connection_header.map tolower ≠ some "upgrade" then
        (c, .ok false)
      else
        match req.get_header "upgrade" with
        | .error e => (c, .error e)
        | .ok upgrade_header =>
          if upgrade_header.isNone ∨ upgrade_header.map tolower ≠ some "websocket" then
            (c, .ok false)
          else
            match req.get_header "sec-websocket-key" with
            | .error e => (c, .error e)
            | .ok none => (c, .ok false)
            | .ok (some sec_websocket_key_header) =>
              let c1 := c.send_http_response (upgrade_response req sec_websocket_key_header)
              ({ c1 with is_websocket := true }, .ok true)

/-! ## The connection lifecycle loop -/

/-- What a call of `handle_request` leaves behind. The handler is application code: it holds the
shared client object and receives the engine's local `req` by rvalue reference
(`handle_request(c, std::move(req))`), so it may change the client and may consume or alter the
request. `c` and `req` are the two objects as the handler left them; `result` is the value it
returned or the object it threw. -/
structure Handled where
  c : HTTPClient
  req : HTTPRequest
  result : Except Exn (Option HTTPResponse)
  deriving DecidableEq, Repr

/-- The overridable handlers and the limits of an `AsyncHTTPServer`. The message handler, too,
holds the shared client object and yields it as it left it; the engine does not read the message
again after the call. -/
structure AsyncHTTPServer where
  limits : HTTPServerLimits
  handle_request : HTTPClient → HTTPRequest → Handled
  handle_websocket_message : HTTPClient → WebSocketMessage → HTTPClient × Except Exn Unit

/-- The base-class `handle_websocket_message`, which does nothing. -/
def default_handle_websocket_message (c : HTTPClient) (_msg : WebSocketMessage) :
    HTTPClient × Except Exn Unit :=
  (c, .ok ())

/-- The count held by `std::chrono::microseconds(n)` for a `size_t` value `n`: the unsigned
64-bit value converted to the signed 64-bit representation of the duration, that is `n` itself
below 2^63 and `n - 2^64` from there on. -/
def chrono_microseconds (n : Nat) : Int :=
  if n % 2 ^ 64 < 2 ^ 63 then ((n % 2 ^ 64 : Nat) : Int)
  else ((n % 2 ^ 64 : Nat) : Int) - 2 ^ 64

/-- What the engine itself does during an iteration, in program order. -/
inductive Action where
  | recv_websocket_message
  | recv_http_request
  | idle_timer_cancel
  | call_handle_websocket_message
  | call_handle_request
  | send_http_response (resp : HTTPResponse)
  | close
  | idle_timer_arm (usecs : Int)
  deriving DecidableEq, Repr

/-- The state carried around the loop of `handle_client`: the client and the local `idle_timer`.
The timer is `some d` while a wait started by `expires_after(d); async_wait(...)` is pending,
with `d` the duration's count of microseconds, and `none` otherwise. -/
structure LoopState where
  c : HTTPClient
  idle_timer : Option Int
  deriving DecidableEq, Repr

/-- The outcome of one pass through the loop body: the state reached, the engine's actions, and
the object thrown out of `handle_client`, if one was. -/
structure Iteration where
  state : LoopState
  actions : List Action
  thrown : Option Exn
  deriving DecidableEq, Repr

/-- The response synthesized by the `catch` block of the HTTP branch from `req` and
`e.what()`. -/
def error_response (req : HTTPRequest) (what : String) : HTTPResponse :=
  { http_version := req.http_version
    response_code := 500
    headers := [("Content-Type", "text/plain")]
    data := "Internal server error:\n" ++ what }

/-- The tail of the loop body: pick the ceiling of the current mode and arm the watchdog when
the ceiling is non-zero and the socket is open. -/
def rearm_idle_timer (limits : HTTPServerLimits) (c : HTTPClient) (actions : List Action) :
    Iteration :=
  let idle_usecs_limit :=
    if c.is_websocket then limits.max_websocket_idle_usecs
    else limits.max_http_keepalive_idle_usecs
  if idle_usecs_limit ≠ 0 ∧ c.r.socket_is_open then
    { state := { c := c, idle_timer := some (chrono_microseconds idle_usecs_limit) }
      actions := actions ++ [.idle_timer_arm (chrono_microseconds idle_usecs_limit)]
      thrown := none }
  else
    { state := { c := c, idle_timer := none }, actions := actions, thrown := none }

/-- The WebSocket branch of the loop body, after `recv_websocket_message` returned `msg`. A
thrown object derived from `std::exception` is caught and the socket closed; any other thrown
object leaves `handle_client`. -/
def websocket_iteration (srv : AsyncHTTPServer) (msg : WebSocketMessage) (c : HTTPClient) :
    Iteration :=
  let acts := [Action.recv_websocket_message, .idle_timer_cancel, .call_handle_websocket_message]
  match srv.handle_websocket_message c msg with
  | (c1, .ok _) => rearm_idle_timer srv.limits c1 acts
  | (c1, .error e) =>
    match e.std_what with
    | some _ => rearm_idle_timer srv.limits { c1 with r := c1.r.close } (acts ++ [.close])
    | none => { state := { c := c1, idle_timer := none }, actions := acts, thrown := some e }

/-- The `try`/`catch` around the call of `handle_request`, applied to the request object as the
handler left it: the handler's response, or the 500 response built from a caught exception, or
the thrown object that the `catch` does not match. -/
def response_or_500 (req : HTTPRequest) (result : Except Exn (Option HTTPResponse)) :
    Except Exn (Option HTTPResponse) :=
  match result with
  | .ok resp => .ok resp
  | .error e =>
    match e.std_what with
    | some what => .ok (some (error_response req what))
    | none => .error e

/-- The statement `if (resp) co_await c->send_http_response(*resp);`. -/
def send_if_present (c : HTTPClient) (actions : List Action) (resp : Option HTTPResponse) :
    HTTPClient × List Action :=
  match resp with
  | some resp => (c.send_http_response resp, actions ++ [.send_http_response resp])
  | none => (c, actions)

/-- The keep-alive decision and the tail of the loop body. When the client is not in WebSocket
mode the `connection` header of `req` is looked up; an exception of that lookup leaves
`handle_client`. -/
def keep_alive_decision (limits : HTTPServerLimits) (req : HTTPRequest) (c : HTTPClient)
    (actions : List Action) : Iteration :=
  if c.is_websocket then rearm_idle_timer limits c actions
  else
    match req.get_header "connection" with
    | .error e => { state := { c := c, idle_timer := none }, actions := actions, thrown := some e }
    | .ok conn_header =>
      if conn_header.isNone ∨ conn_header ≠ some "keep-alive" then
        rearm_idle_timer limits { c with r := c.r.close } (actions ++ [.close])
      else rearm_idle_timer limits c actions

/-- The HTTP branch of the loop body, after `recv_http_request` returned `req`. After the call
of the handler the engine goes on with the client and with `req` as the handler left them. -/
def http_iteration (srv : AsyncHTTPServer) (req : HTTPRequest) (c : HTTPClient) : Iteration :=
  let acts := [Action.recv_http_request, .idle_timer_cancel, .call_handle_request]
  let handled := srv.handle_request c req
  match response_or_500 handled.req handled.result with
  | .error e => { state := { c := handled.c, idle_timer := none }, actions := acts, thrown := some e }
  | .ok resp =>
    let sent := send_if_present handled.c acts resp
    keep_alive_decision srv.limits handled.req sent.1 sent.2

/-- A unit arriving on the connection: what `recv_http_request` returns if the iteration is in
HTTP mode, and what `recv_websocket_message` returns if it is in WebSocket mode. -/
structure Received where
  req : HTTPRequest
  msg : WebSocketMessage
  deriving DecidableEq, Repr

/-- The body of the `while` loop of `handle_client`, entered with the socket open. -/
def handle_client_iteration (srv : AsyncHTTPServer) (input : Received) (c : HTTPClient) :
    Iteration :=
  if c.is_websocket then websocket_iteration srv input.msg c
  else http_iteration srv input.req c

/-- Number of headers of the request stored under `name`. -/
def header_count (req : HTTPRequest) (name : String) : Nat :=
  req.headers.countP (fun kv => kv.1 == name)

/-- The responses among a list of engine actions, in order. -/
def sent_responses : List Action → List HTTPResponse
  | [] => []
  | .send_http_response resp :: rest => resp :: sent_responses rest
  | _ :: rest => sent_responses rest

/-- The idle ceiling of the mode the client is in. -/
def idle_ceiling (limits : HTTPServerLimits) (c : HTTPClient) : Nat :=
  if c.is_websocket then limits.max_websocket_idle_usecs
  else limits.max_http_keepalive_idle_usecs

/-- An open, freshly accepted connection. -/
def fresh_client : HTTPClient :=
  HTTPClient.create { socket_is_open := true, written := [] }

/-- A request with the given method, headers and path, for HTTP/1.1. -/
def request_with (method : Method) (path : String) (headers : List (String × String)) :
    HTTPRequest :=
  { http_version := "HTTP/1.1", method := method, path := path, fragment := "",
    headers := headers, query_params := [], data := "" }

/-- The opening handshake request of RFC 6455, section 1.3 (header names already lowercase). -/
def rfc6455_request : HTTPRequest :=
  request_with .GET "/chat"
    [("host", "server.example.com"), ("upgrade", "websocket"), ("connection", "Upgrade"),
      ("sec-websocket-key", "dGhlIHNhbXBsZSBub25jZQ=="), ("sec-websocket-version", "13")]

/-- The RFC 6455 handshake headers sent with POST instead of GET. -/
def post_request : HTTPRequest :=
  request_with .POST "/chat" rfc6455_request.headers

/-- A request object after its contents were moved out: the strings and the two maps are empty,
the method is unchanged. -/
def moved_from (req : HTTPRequest) : HTTPRequest :=
  { http_version := "", method := req.method, path := "", fragment := "", headers := [],
    query_params := [], data := "" }

/-- A request handler that leaves the request as received: `/fail` throws an `HTTPError`,
`/chat` attempts the WebSocket upgrade, every other path is answered with a 200 response. -/
def demo_handle_request (c : HTTPClient) (req : HTTPRequest) : Handled :=
  if req.path = "/fail" then { c := c, req := req, result := .error (.HTTPError 400 "bad input") }
  else if req.path = "/chat" then
    match enable_websockets c req with
    | (c1, .ok true) => { c := c1, req := req, result := .ok none }
    | (c1, .ok false) =>
      { c := c1, req := req
        result := .ok (some { http_version := req.http_version, response_code := 400 }) }
    | (c1, .error e) => { c := c1, req := req, result := .error e }
  else
    { c := c, req := req
      result := .ok (some { http_version := req.http_version, data := "hello" }) }

/-- A message handler that leaves the flag alone: the message `fail` throws a
`std::exception`, every other message is echoed back. -/
def demo_handle_websocket_message (c : HTTPClient) (msg : WebSocketMessage) :
    HTTPClient × Except Exn Unit :=
  if msg.data = "fail" then (c, .error (.std_exception "bad frame"))
  else (c.send_websocket_message msg.data msg.opcode, .ok ())

/-- A server with the two handlers above, a 5-minute keep-alive ceiling and a 1-minute WebSocket
ceiling. -/
def demo_server : AsyncHTTPServer :=
  { limits := { max_websocket_idle_usecs := 60 * 1000 * 1000 }
    handle_request := demo_handle_request
    handle_websocket_message := demo_handle_websocket_message }

/-- A request handler that takes the contents of the request for itself
(`HTTPRequest mine = std::move(req);`): `/throw` throws an `int`, `/fail` throws a
`std::runtime_error` after taking the request, every other path is answered with a 200 response
after taking the request. -/
def consuming_handle_request (c : HTTPClient) (req : HTTPRequest) : Handled :=
  if req.path = "/throw" then { c := c, req := req, result := .error (.other "int 42") }
  else if req.path = "/fail" then
    { c := c, req := moved_from req, result := .error (.std_exception "lost") }
  else
    { c := c, req := moved_from req
      result := .ok (some { http_version := req.http_version, data := "hello" }) }

/-- A message handler that writes the public flag: the message `http` clears `is_websocket`,
the message `throw` throws an `int`, every other message is ignored. -/
def resetting_handle_websocket_message (c : HTTPClient) (msg : WebSocketMessage) :
    HTTPClient × Except Exn Unit :=
  if msg.data = "http" then ({ c with is_websocket := false }, .ok ())
  else if msg.data = "throw" then (c, .error (.other "int 42"))
  else (c, .ok ())

/-- A server with the two handlers above and the default limits. -/
def intrusive_server : AsyncHTTPServer :=
  { limits := {}
    handle_request := consuming_handle_request
    handle_websocket_message := resetting_handle_websocket_message }

/-- The default text message. -/
def text_message (data : String) : WebSocketMessage :=
  { data := data }

/-- A plain GET of `path` with the given headers, as the next unit on the connection. -/
def get_unit (path : String) (headers : List (String × String)) : Received :=
  { req := request_with .GET path headers, msg := text_message "" }

/-- A text frame as the next unit on the connection. -/
def message_unit (data : String) : Received :=
  { req := request_with .GET "/" [], msg := text_message data }

/-- A request for `/` asking for keep-alive. -/
def keep_alive_unit : Received :=
  get_unit "/" [("connection", "keep-alive")]

/-- A client that has gone through the upgrade. -/
def upgraded_client : HTTPClient :=
  (enable_websockets fresh_client rfc6455_request).1

/-! ## Lemmas on header lookup -/

theorem mem_values_for (headers : List (String × String)) (name v : String) :
    v ∈ values_for headers name ↔ (name, v) ∈ headers := by
  unfold values_for
  simp only [List.mem_map, List.mem_filter, beq_iff_eq]
  constructor
  · rintro ⟨⟨k, w⟩, ⟨hmem, hk⟩, hv⟩
    simp only at hk hv
    subst hk
    subst hv
    exact hmem
  · intro h
    exact ⟨(name, v), ⟨h, rfl⟩, rfl⟩

theorem length_values_for (req : HTTPRequest) (name : String) :
    (values_for req.headers name).length = header_count req name := by
  unfold values_for header_count
  rw [List.length_map, List.countP_eq_length_filter]

theorem get_header_eq_none (req : HTTPRequest) (name : String) :
    req.get_header name = .ok none ↔ ∀ v, (name, v) ∉ req.headers := by
  unfold HTTPRequest.get_header
  constructor
  · intro h v hv
    have hm := (mem_values_for req.headers name v).2 hv
    revert h hm
    cases values_for req.headers name with
    | nil => simp
    | cons a t =>
      cases t with
      | nil => simp
      | cons b u => simp
  · intro h
    have hnil : values_for req.headers name = [] := by
      apply List.eq_nil_iff_forall_not_mem.2
      intro v hv
      exact h v ((mem_values_for req.headers name v).1 hv)
    rw [hnil]

theorem get_header_eq_some (req : HTTPRequest) (name v : String) :
    req.get_header name = .ok (some v) ↔ values_for req.headers name = [v] := by
  unfold HTTPRequest.get_header
  cases values_for req.headers name with
  | nil => simp
  | cons a t =>
    cases t with
    | nil => simp
    | cons b u => simp

theorem get_header_some_mem (req : HTTPRequest) (name v : String)
    (h : req.get_header name = .ok (some v)) : (name, v) ∈ req.headers := by
  rw [get_header_eq_some] at h
  apply (mem_values_for req.headers name v).1
  rw [h]
  exact List.mem_singleton.2 rfl

theorem get_header_some_unique (req : HTTPRequest) (name v w : String)
    (h : req.get_header name = .ok (some v)) (hw : (name, w) ∈ req.headers) : w = v := by
  rw [get_header_eq_some] at h
  have := (mem_values_for req.headers name w).2 hw
  rw [h] at this
  exact List.mem_singleton.1 this

theorem get_header_of_count_le_one (req : HTTPRequest) (name : String)
    (h : header_count req name ≤ 1) :
    req.get_header name = .ok none ∨ ∃ v, req.get_header name = .ok (some v) := by
  rw [← length_values_for] at h
  unfold HTTPRequest.get_header
  revert h
  cases values_for req.headers name with
  | nil => simp
  | cons a t =>
    cases t with
    | nil => simp
    | cons b u => simp

theorem get_header_error_iff (req : HTTPRequest) (name : String) (e : Exn) :
    req.get_header name = .error e ↔
      2 ≤ header_count req name ∧ e = .HTTPError 400 (multiple_values_what name) := by
  rw [← length_values_for]
  unfold HTTPRequest.get_header
  cases values_for req.headers name with
  | nil => simp
  | cons a t =>
    cases t with
    | nil => simp
    | cons b u =>
      simp only [Except.error.injEq, List.length_cons]
      constructor
      · intro h
        exact ⟨by omega, h.symm⟩
      · intro h
        exact h.2.symm

/-! ## Lemmas on the handshake -/

theorem enable_websockets_of_eligible (c : HTTPClient) (req : HTTPRequest) (cv uv kv : String)
    (hm : req.method = .GET)
    (hc : req.get_header "connection" = .ok (some cv)) (hcl : tolower cv = "upgrade")
    (hu : req.get_header "upgrade" = .ok (some uv)) (hul : tolower uv = "websocket")
    (hk : req.get_header "sec-websocket-key" = .ok (some kv)) :
    enable_websockets c req =
      ({ c.send_http_response (upgrade_response req kv) with is_websocket := true }, .ok true) := by
  unfold enable_websockets
  simp [hm, hc, hcl, hu, hul, hk]

theorem eligible_of_enable_websockets (c : HTTPClient) (req : HTTPRequest)
    (h : (enable_websockets c req).2 = .ok true) :
    req.method = .GET ∧ ∃ cv uv kv,
      req.get_header "connection" = .ok (some cv) ∧ tolower cv = "upgrade" ∧
      req.get_header "upgrade" = .ok (some uv) ∧ tolower uv = "websocket" ∧
      req.get_header "sec-websocket-key" = .ok (some kv) := by
  by_cases hm : req.method = .GET
  swap
  · simp [enable_websockets, hm] at h
  refine ⟨hm, ?_⟩
  rcases hc : req.get_header "connection" with e | ch
  · simp [enable_websockets, hm, hc] at h
  rcases ch with _ | cv
  · simp [enable_websockets, hm, hc] at h
  by_cases hcl : tolower cv = "upgrade"
  swap
  · simp [enable_websockets, hm, hc, hcl] at h
  rcases hu : req.get_header "upgrade" with e | uh
  · simp [enable_websockets, hm, hc, hcl, hu] at h
  rcases uh with _ | uv
  · simp [enable_websockets, hm, hc, hcl, hu] at h
  by_cases hul : tolower uv = "websocket"
  swap
  · simp [enable_websockets, hm, hc, hcl, hu, hul] at h
  rcases hk : req.get_header "sec-websocket-key" with e | kh
  · simp [enable_websockets, hm, hc, hcl, hu, hul, hk] at h
  rcases kh with _ | kv
  · simp [enable_websockets, hm, hc, hcl, hu, hul, hk] at h
  exact ⟨cv, uv, kv, rfl, hcl, rfl, hul, rfl⟩

theorem enable_websockets_false_state (c : HTTPClient) (req : HTTPRequest)
    (h : (enable_websockets c req).2 = .ok false) : (enable_websockets c req).1 = c := by
  by_cases hm : req.method = .GET
  swap
  · simp [enable_websockets, hm]
  rcases hc : req.get_header "connection" with e | ch
  · simp [enable_websockets, hm, hc]
  rcases ch with _ | cv
  · simp [enable_websockets, hm, hc]
  by_cases hcl : tolower cv = "upgrade"
  swap
  · simp [enable_websockets, hm, hc, hcl]
  rcases hu : req.get_header "upgrade" with e | uh
  · simp [enable_websockets, hm, hc, hcl, hu]
  rcases uh with _ | uv
  · simp [enable_websockets, hm, hc, hcl, hu]
  by_cases hul : tolower uv = "websocket"
  swap
  · simp [enable_websockets, hm, hc, hcl, hu, hul]
  rcases hk : req.get_header "sec-websocket-key" with e | kh
  · simp [enable_websockets, hm, hc, hcl, hu, hul, hk]
  rcases kh with _ | kv
  · simp [enable_websockets, hm, hc, hcl, hu, hul, hk]
  · simp [enable_websockets, hm, hc, hcl, hu, hul, hk] at h

theorem enable_websockets_error (c : HTTPClient) (req : HTTPRequest) (e : Exn)
    (h : (enable_websockets c req).2 = .error e) :
    req.get_header "connection" = .error e ∨ req.get_header "upgrade" = .error e ∨
      req.get_header "sec-websocket-key" = .error e := by
  by_cases hm : req.method = .GET
  swap
  · simp [enable_websockets, hm] at h
  rcases hc : req.get_header "connection" with e1 | ch
  · simp [enable_websockets, hm, hc] at h
    exact Or.inl (by rw [h])
  rcases ch with _ | cv
  · simp [enable_websockets, hm, hc] at h
  by_cases hcl : tolower cv = "upgrade"
  swap
  · simp [enable_websockets, hm, hc, hcl] at h
  rcases hu : req.get_header "upgrade" with e1 | uh
  · simp [enable_websockets, hm, hc, hcl, hu] at h
    exact Or.inr (Or.inl (by rw [h]))
  rcases uh with _ | uv
  · simp [enable_websockets, hm, hc, hcl, hu] at h
  by_cases hul : tolower uv = "websocket"
  swap
  · simp [enable_websockets, hm, hc, hcl, hu, hul] at h
  rcases hk : req.get_header "sec-websocket-key" with e1 | kh
  · simp [enable_websockets, hm, hc, hcl, hu, hul, hk] at h
    exact Or.inr (Or.inr (by rw [h]))
  rcases kh with _ | kv
  · simp [enable_websockets, hm, hc, hcl, hu, hul, hk] at h
  · simp [enable_websockets, hm, hc, hcl, hu, hul, hk] at h

theorem get_header_of_mem (req : HTTPRequest) (name v : String)
    (hcount : header_count req name ≤ 1) (hv : (name, v) ∈ req.headers) :
    req.get_header name = .ok (some v) := by
  rcases get_header_of_count_le_one req name hcount with h | ⟨w, h⟩
  · exact absurd hv ((get_header_eq_none req name).1 h v)
  · rw [h, get_header_some_unique req name w v h hv]

theorem rfc6455_accept :
    sec_websocket_accept "dGhlIHNhbXBsZSBub25jZQ==" = "s3pPLMBiTxaQ9kYGzzhZRbK+xOo=" := by
  decide!

/-! ## Lemmas on the loop body -/

theorem sent_responses_append (xs ys : List Action) :
    sent_responses (xs ++ ys) = sent_responses xs ++ sent_responses ys := by
  induction xs with
  | nil => rfl
  | cons a t ih => cases a <;> simp [sent_responses, ih]

theorem rearm_idle_timer_eq (limits : HTTPServerLimits) (c : HTTPClient)
    (actions : List Action) :
    rearm_idle_timer limits c actions =
      if idle_ceiling limits c ≠ 0 ∧ c.r.socket_is_open = true then
        { state := { c := c, idle_timer := some (chrono_microseconds (idle_ceiling limits c)) }
          actions := actions ++ [.idle_timer_arm (chrono_microseconds (idle_ceiling limits c))]
          thrown := none }
      else { state := { c := c, idle_timer := none }, actions := actions, thrown := none } :=
  rfl

theorem rearm_state_c (limits : HTTPServerLimits) (c : HTTPClient) (actions : List Action) :
    (rearm_idle_timer limits c actions).state.c = c := by
  by_cases h : idle_ceiling limits c ≠ 0 ∧ c.r.socket_is_open = true <;>
    simp [rearm_idle_timer_eq, h]

theorem rearm_thrown (limits : HTTPServerLimits) (c : HTTPClient) (actions : List Action) :
    (rearm_idle_timer limits c actions).thrown = none := by
  by_cases h : idle_ceiling limits c ≠ 0 ∧ c.r.socket_is_open = true <;>
    simp [rearm_idle_timer_eq, h]

theorem rearm_actions (limits : HTTPServerLimits) (c : HTTPClient) (actions : List Action) :
    (rearm_idle_timer limits c actions).actions =
      actions ++
        if idle_ceiling limits c ≠ 0 ∧ c.r.socket_is_open = true then
          [.idle_timer_arm (chrono_microseconds (idle_ceiling limits c))]
        else [] := by
  by_cases h : idle_ceiling limits c ≠ 0 ∧ c.r.socket_is_open = true <;>
    simp [rearm_idle_timer_eq, h]

theorem close_mem_rearm (limits : HTTPServerLimits) (c : HTTPClient) (actions : List Action) :
    Action.close ∈ (rearm_idle_timer limits c actions).actions ↔ Action.close ∈ actions := by
  by_cases h : idle_ceiling limits c ≠ 0 ∧ c.r.socket_is_open = true <;>
    simp [rearm_actions, h]

theorem sent_responses_rearm (limits : HTTPServerLimits) (c : HTTPClient)
    (actions : List Action) :
    sent_responses (rearm_idle_timer limits c actions).actions = sent_responses actions := by
  by_cases h : idle_ceiling limits c ≠ 0 ∧ c.r.socket_is_open = true <;>
    simp [rearm_actions, h, sent_responses_append, sent_responses]

/-- The three ways the keep-alive decision can go, by the flag and the header lookup. -/
theorem keep_alive_decision_cases (limits : HTTPServerLimits) (req : HTTPRequest)
    (c : HTTPClient) (actions : List Action) :
    (keep_alive_decision limits req c actions = rearm_idle_timer limits c actions ∧
      (c.is_websocket = true ∨ req.get_header "connection" = .ok (some "keep-alive"))) ∨
    (keep_alive_decision limits req c actions =
        rearm_idle_timer limits { c with r := c.r.close } (actions ++ [.close]) ∧
      c.is_websocket = false ∧
      (req.get_header "connection" = .ok none ∨
        ∃ v, req.get_header "connection" = .ok (some v) ∧ v ≠ "keep-alive")) ∨
    (∃ e, keep_alive_decision limits req c actions =
        { state := { c := c, idle_timer := none }, actions := actions, thrown := some e } ∧
      c.is_websocket = false ∧ req.get_header "connection" = .error e) := by
  by_cases hws : c.is_websocket = true
  · exact Or.inl ⟨by simp [keep_alive_decision, hws], Or.inl hws⟩
  · have hf : c.is_websocket = false := by simpa using hws
    rcases hh : req.get_header "connection" with e | v
    · exact Or.inr (Or.inr ⟨e, by simp [keep_alive_decision, hf, hh], hf, rfl⟩)
    · cases v with
      | none =>
        exact Or.inr (Or.inl ⟨by simp [keep_alive_decision, hf, hh], hf, Or.inl rfl⟩)
      | some w =>
        by_cases hw : w = "keep-alive"
        · subst hw
          exact Or.inl ⟨by simp [keep_alive_decision, hf, hh], Or.inr rfl⟩
        · exact Or.inr (Or.inl ⟨by simp [keep_alive_decision, hf, hh, hw], hf,
            Or.inr ⟨w, rfl, hw⟩⟩)

theorem keep_alive_decision_close (limits : HTTPServerLimits) (req : HTTPRequest)
    (c : HTTPClient) (actions : List Action) (hno : Action.close ∉ actions)
    (hfin : (keep_alive_decision limits req c actions).thrown = none) :
    Action.close ∈ (keep_alive_decision limits req c actions).actions ↔
      c.is_websocket = false ∧
        (req.get_header "connection" = .ok none ∨
          ∃ v, req.get_header "connection" = .ok (some v) ∧ v ≠ "keep-alive") := by
  rcases keep_alive_decision_cases limits req c actions with
    ⟨h, hc | hc⟩ | ⟨h, hf, hc⟩ | ⟨e, h, hf, hc⟩
  · rw [h, close_mem_rearm]
    simp [hno, hc]
  · rw [h, close_mem_rearm]
    simp [hno, hc]
  · rw [h, close_mem_rearm]
    simp [hf, hc]
  · rw [h] at hfin
    simp at hfin

theorem websocket_iteration_ok (srv : AsyncHTTPServer) (msg : WebSocketMessage)
    (c c1 : HTTPClient) (u : Unit) (h : srv.handle_websocket_message c msg = (c1, .ok u)) :
    websocket_iteration srv msg c =
      rearm_idle_timer srv.limits c1
        [.recv_websocket_message, .idle_timer_cancel, .call_handle_websocket_message] := by
  simp [websocket_iteration, h]

theorem websocket_iteration_caught (srv : AsyncHTTPServer) (msg : WebSocketMessage)
    (c c1 : HTTPClient) (e : Exn) (m : String)
    (h : srv.handle_websocket_message c msg = (c1, .error e)) (hm : e.std_what = some m) :
    websocket_iteration srv msg c =
      rearm_idle_timer srv.limits { c1 with r := c1.r.close }
        [.recv_websocket_message, .idle_timer_cancel, .call_handle_websocket_message, .close] := by
  simp [websocket_iteration, h, hm]

theorem websocket_iteration_uncaught (srv : AsyncHTTPServer) (msg : WebSocketMessage)
    (c c1 : HTTPClient) (e : Exn)
    (h : srv.handle_websocket_message c msg = (c1, .error e)) (hm : e.std_what = none) :
    websocket_iteration srv msg c =
      { state := { c := c1, idle_timer := none }
        actions := [.recv_websocket_message, .idle_timer_cancel, .call_handle_websocket_message]
        thrown := some e } := by
  simp [websocket_iteration, h, hm]

/-- C1: when each of `connection`, `upgrade` and `sec-websocket-key` occurs at most once,
`enable_websockets` returns true exactly when the method is GET, a `connection` header is
present whose lowercased value is "upgrade", an `upgrade` header is present whose lowercased
value is "websocket", and a `sec-websocket-key` header is present (any value); in every other
case it returns false. -/
theorem enable_websockets_true_iff (c : HTTPClient) (req : HTTPRequest)
    (hc : header_count req "connection" ≤ 1) (hu : header_count req "upgrade" ≤ 1)
    (hk : header_count req "sec-websocket-key" ≤ 1) :
    ((enable_websockets c req).2 = .ok true ↔
      (req.method = .GET ∧
        (∃ v, ("connection", v) ∈ req.headers ∧ tolower v = "upgrade") ∧
        (∃ v, ("upgrade", v) ∈ req.headers ∧ tolower v = "websocket") ∧
        ∃ v, ("sec-websocket-key", v) ∈ req.headers)) ∧
    ((enable_websockets c req).2 ≠ .ok true → (enable_websockets c req).2 = .ok false) := by
  constructor
  · constructor
    · intro h
      obtain ⟨hm, cv, uv, kv, h1, h2, h3, h4, h5⟩ := eligible_of_enable_websockets c req h
      exact ⟨hm, ⟨cv, get_header_some_mem req _ cv h1, h2⟩,
        ⟨uv, get_header_some_mem req _ uv h3, h4⟩, ⟨kv, get_header_some_mem req _ kv h5⟩⟩
    · rintro ⟨hm, ⟨cv, hcv, hcl⟩, ⟨uv, huv, hul⟩, ⟨kv, hkv⟩⟩
      rw [enable_websockets_of_eligible c req cv uv kv hm (get_header_of_mem req _ cv hc hcv) hcl
        (get_header_of_mem req _ uv hu huv) hul (get_header_of_mem req _ kv hk hkv)]
  · intro hne
    rcases hr : (enable_websockets c req).2 with e | b
    · exfalso
      rcases enable_websockets_error c req e hr with h | h | h
      · have := ((get_header_error_iff req _ e).1 h).1
        omega
      · have := ((get_header_error_iff req _ e).1 h).1
        omega
      · have := ((get_header_error_iff req _ e).1 h).1
        omega
    · cases b with
      | false => rfl
      | true => exact absurd hr hne

/-- Witness of C1 on the handshake request of RFC 6455. -/
theorem enable_websockets_true_iff_witness :
    (header_count rfc6455_request "connection" ≤ 1 ∧ header_count rfc6455_request "upgrade" ≤ 1 ∧
      header_count rfc6455_request "sec-websocket-key" ≤ 1) ∧
    ((enable_websockets fresh_client rfc6455_request).2 = .ok true ↔
      (rfc6455_request.method = .GET ∧
        (∃ v, ("connection", v) ∈ rfc6455_request.headers ∧ tolower v = "upgrade") ∧
        (∃ v, ("upgrade", v) ∈ rfc6455_request.headers ∧ tolower v = "websocket") ∧
        ∃ v, ("sec-websocket-key", v) ∈ rfc6455_request.headers)) :=
  ⟨⟨by decide, by decide, by decide⟩,
    (enable_websockets_true_iff fresh_client rfc6455_request (by decide) (by decide)
      (by decide)).1⟩

/-- C2: whenever `enable_websockets` returns true it has written exactly one HTTP response,
with status 101, the request's `http_version`, an empty body and exactly the headers
`Upgrade: websocket`, `Connection: upgrade` and `Sec-WebSocket-Accept: <token>`, and the
client's `is_websocket` flag is true afterwards. -/
theorem enable_websockets_sends_101 (c : HTTPClient) (req : HTTPRequest)
    (h : (enable_websockets c req).2 = .ok true) :
    (∃ token, (enable_websockets c req).1.r.written = c.r.written ++
      [.http_response
        { http_version := req.http_version
          response_code := 101
          headers :=
            [("Upgrade", "websocket"), ("Connection", "upgrade"), ("Sec-WebSocket-Accept", token)]
          data := "" }]) ∧
    (enable_websockets c req).1.is_websocket = true := by
  obtain ⟨hm, cv, uv, kv, h1, h2, h3, h4, h5⟩ := eligible_of_enable_websockets c req h
  rw [enable_websockets_of_eligible c req cv uv kv hm h1 h2 h3 h4 h5]
  exact ⟨⟨sec_websocket_accept kv, rfl⟩, rfl⟩

/-- Witness of C2 on the handshake request of RFC 6455. -/
theorem enable_websockets_sends_101_witness :
    (enable_websockets fresh_client rfc6455_request).2 = .ok true ∧
    (∃ token, (enable_websockets fresh_client rfc6455_request).1.r.written =
      fresh_client.r.written ++
      [.http_response
        { http_version := rfc6455_request.http_version
          response_code := 101
          headers :=
            [("Upgrade", "websocket"), ("Connection", "upgrade"), ("Sec-WebSocket-Accept", token)]
          data := "" }]) ∧
    (enable_websockets fresh_client rfc6455_request).1.is_websocket = true :=
  ⟨by decide, enable_websockets_sends_101 fresh_client rfc6455_request (by decide)⟩

/-- C3: for an eligible request whose `sec-websocket-key` header has value `key`, the
`Sec-WebSocket-Accept` header of the response written by `enable_websockets` is
base64(SHA-1(key ++ "258EAFA5-E914-47DA-95CA-C5AB0DC85B11")), with `key` used as received; for
the key "dGhlIHNhbXBsZSBub25jZQ==" it is "s3pPLMBiTxaQ9kYGzzhZRbK+xOo=". -/
theorem enable_websockets_accept_token (c : HTTPClient) (req : HTTPRequest) (key : String)
    (h : (enable_websockets c req).2 = .ok true)
    (hkey : ("sec-websocket-key", key) ∈ req.headers) :
    ∃ resp, (enable_websockets c req).1.r.written = c.r.written ++ [.http_response resp] ∧
      values_for resp.headers "Sec-WebSocket-Accept" =
        [base64_encode (SHA1 (string_bytes (key ++ "258EAFA5-E914-47DA-95CA-C5AB0DC85B11")))] ∧
      (key = "dGhlIHNhbXBsZSBub25jZQ==" →
        values_for resp.headers "Sec-WebSocket-Accept" = ["s3pPLMBiTxaQ9kYGzzhZRbK+xOo="]) := by
  obtain ⟨hm, cv, uv, kv, h1, h2, h3, h4, h5⟩ := eligible_of_enable_websockets c req h
  have hk : key = kv := get_header_some_unique req _ kv key h5 hkey
  subst hk
  rw [enable_websockets_of_eligible c req cv uv key hm h1 h2 h3 h4 h5]
  have hv : values_for (upgrade_response req key).headers "Sec-WebSocket-Accept" =
      [sec_websocket_accept key] := by
    simp [values_for, upgrade_response, List.filter]
  refine ⟨upgrade_response req key, rfl, hv, ?_⟩
  intro hrfc
  rw [hv, hrfc, rfc6455_accept]

/-- Witness of C3 on the handshake request of RFC 6455. -/
theorem enable_websockets_accept_token_witness :
    ((enable_websockets fresh_client rfc6455_request).2 = .ok true ∧
      ("sec-websocket-key", "dGhlIHNhbXBsZSBub25jZQ==") ∈ rfc6455_request.headers) ∧
    ∃ resp, (enable_websockets fresh_client rfc6455_request).1.r.written =
        fresh_client.r.written ++ [.http_response resp] ∧
      values_for resp.headers "Sec-WebSocket-Accept" =
        [base64_encode (SHA1 (string_bytes
          ("dGhlIHNhbXBsZSBub25jZQ==" ++ "258EAFA5-E914-47DA-95CA-C5AB0DC85B11")))] ∧
      ("dGhlIHNhbXBsZSBub25jZQ==" = "dGhlIHNhbXBsZSBub25jZQ==" →
        values_for resp.headers "Sec-WebSocket-Accept" = ["s3pPLMBiTxaQ9kYGzzhZRbK+xOo="]) :=
  ⟨⟨by decide, by decide⟩,
    enable_websockets_accept_token fresh_client rfc6455_request "dGhlIHNhbXBsZSBub25jZQ=="
      (by decide) (by decide)⟩

/-- C4: whenever `enable_websockets` returns false the client is exactly as before the call:
nothing was written to the socket and `is_websocket` is unchanged. -/
theorem enable_websockets_false_no_effect (c : HTTPClient) (req : HTTPRequest)
    (h : (enable_websockets c req).2 = .ok false) :
    (enable_websockets c req).1 = c ∧
    (enable_websockets c req).1.r.written = c.r.written ∧
    (enable_websockets c req).1.is_websocket = c.is_websocket := by
  rw [enable_websockets_false_state c req h]
  exact ⟨rfl, rfl, rfl⟩

/-- Witness of C4: the RFC 6455 request sent with POST is refused and leaves no trace. -/
theorem enable_websockets_false_no_effect_witness :
    (enable_websockets fresh_client post_request).2 = .ok false ∧
    (enable_websockets fresh_client post_request).1 = fresh_client ∧
    (enable_websockets fresh_client post_request).1.r.written =
      fresh_client.r.written ∧
    (enable_websockets fresh_client post_request).1.is_websocket =
      fresh_client.is_websocket :=
  ⟨by decide, enable_websockets_false_no_effect fresh_client post_request (by decide)⟩

/-! ## The lifecycle loop: keep-alive, error recovery, modes, watchdog -/

/-- C7, amended: in a WebSocket-mode iteration, if `handle_websocket_message` throws an object
derived from `std::exception`, the engine closes the connection, writes nothing and nothing
leaves the iteration; if it throws any other object, the engine neither closes nor writes and
the object leaves `handle_client`; if it returns, the engine neither closes nor writes: the
client, its flag included, is exactly as the handler left it, nothing leaves, and the next
iteration takes the WebSocket branch exactly when the handler left the flag set. -/
theorem websocket_handler_outcomes (srv : AsyncHTTPServer) (input : Received) (c : HTTPClient)
    (hmode : c.is_websocket = true) :
    (∀ c1 e m, srv.handle_websocket_message c input.msg = (c1, .error e) →
      e.std_what = some m →
      Action.close ∈ (handle_client_iteration srv input c).actions ∧
      (handle_client_iteration srv input c).state.c.r.socket_is_open = false ∧
      sent_responses (handle_client_iteration srv input c).actions = [] ∧
      (handle_client_iteration srv input c).state.c.r.written = c1.r.written ∧
      (handle_client_iteration srv input c).state.c.is_websocket = c1.is_websocket ∧
      (handle_client_iteration srv input c).thrown = none) ∧
    (∀ c1 e, srv.handle_websocket_message c input.msg = (c1, .error e) →
      e.std_what = none →
      (handle_client_iteration srv input c).actions =
        [.recv_websocket_message, .idle_timer_cancel, .call_handle_websocket_message] ∧
      (handle_client_iteration srv input c).state = { c := c1, idle_timer := none } ∧
      (handle_client_iteration srv input c).thrown = some e) ∧
    (∀ c1 u, srv.handle_websocket_message c input.msg = (c1, .ok u) →
      Action.close ∉ (handle_client_iteration srv input c).actions ∧
      sent_responses (handle_client_iteration srv input c).actions = [] ∧
      (handle_client_iteration srv input c).state.c = c1 ∧
      (handle_client_iteration srv input c).thrown = none ∧
      (∀ next, handle_client_iteration srv next (handle_client_iteration srv input c).state.c =
        if c1.is_websocket = true then websocket_iteration srv next.msg c1
        else http_iteration srv next.req c1)) := by
  have hiter : handle_client_iteration srv input c = websocket_iteration srv input.msg c := by
    simp [handle_client_iteration, hmode]
  rw [hiter]
  refine ⟨?_, ?_, ?_⟩
  · intro c1 e m h hm
    rw [websocket_iteration_caught srv input.msg c c1 e m h hm]
    refine ⟨?_, ?_, ?_, ?_, ?_, ?_⟩
    · rw [close_mem_rearm]
      simp
    · rw [rearm_state_c]
      rfl
    · rw [sent_responses_rearm]
      rfl
    · rw [rearm_state_c]
      rfl
    · rw [rearm_state_c]
    · exact rearm_thrown _ _ _
  · intro c1 e h hm
    rw [websocket_iteration_uncaught srv input.msg c c1 e h hm]
    exact ⟨rfl, rfl, rfl⟩
  · intro c1 u h
    rw [websocket_iteration_ok srv input.msg c c1 u h]
    refine ⟨?_, ?_, ?_, ?_, ?_⟩
    · rw [close_mem_rearm]
      simp
    · rw [sent_responses_rearm]
      rfl
    · exact rearm_state_c _ _ _
    · exact rearm_thrown _ _ _
    · intro next
      rw [rearm_state_c]
      rfl

/-- Witness of C7: on an upgraded client the demo handler throws a `std::exception` on the
message `fail` and returns on the message `hello`; the resetting handler throws an `int` on the
message `throw`. -/
theorem websocket_handler_outcomes_witness :
    (upgraded_client.is_websocket = true ∧
      demo_server.handle_websocket_message upgraded_client (message_unit "fail").msg =
        (upgraded_client, .error (.std_exception "bad frame")) ∧
      (Exn.std_exception "bad frame").std_what = some "bad frame" ∧
      intrusive_server.handle_websocket_message upgraded_client (message_unit "throw").msg =
        (upgraded_client, .error (.other "int 42")) ∧
      (Exn.other "int 42").std_what = none ∧
      demo_server.handle_websocket_message upgraded_client (message_unit "hello").msg =
        (upgraded_client.send_websocket_message "hello" 1, .ok ())) ∧
    (Action.close ∈
        (handle_client_iteration demo_server (message_unit "fail") upgraded_client).actions ∧
      (handle_client_iteration demo_server (message_unit "fail") upgraded_client).thrown = none) ∧
    (handle_client_iteration intrusive_server (message_unit "throw") upgraded_client).thrown =
      some (.other "int 42") ∧
    (Action.close ∉
        (handle_client_iteration demo_server (message_unit "hello") upgraded_client).actions ∧
      (handle_client_iteration demo_server (message_unit "hello") upgraded_client).state.c =
        upgraded_client.send_websocket_message "hello" 1) :=
  ⟨⟨rfl, rfl, rfl, rfl, rfl, rfl⟩,
    ⟨((websocket_handler_outcomes demo_server (message_unit "fail") upgraded_client rfl).1
        upgraded_client (.std_exception "bad frame") "bad frame" rfl rfl).1,
      ((websocket_handler_outcomes demo_server (message_unit "fail") upgraded_client rfl).1
        upgraded_client (.std_exception "bad frame") "bad frame" rfl rfl).2.2.2.2.2⟩,
    ((websocket_handler_outcomes intrusive_server (message_unit "throw") upgraded_client rfl).2.1
      upgraded_client (.other "int 42") rfl rfl).2.2,
    ⟨((websocket_handler_outcomes demo_server (message_unit "hello") upgraded_client rfl).2.2
        (upgraded_client.send_websocket_message "hello" 1) () rfl).1,
      ((websocket_handler_outcomes demo_server (message_unit "hello") upgraded_client rfl).2.2
        (upgraded_client.send_websocket_message "hello" 1) () rfl).2.2.1⟩⟩

/-- Counterexample to C7 as stated, on a client in WebSocket mode. A message handler that throws
an `int` is followed by no close, the socket stays open and the thrown object leaves
`handle_client`; a message handler that returns after clearing the public `is_websocket` flag
leaves the connection in HTTP mode, and the next iteration calls `handle_request`. -/
theorem websocket_handler_outcomes_counterexample :
    upgraded_client.is_websocket = true ∧
    ((intrusive_server.handle_websocket_message upgraded_client (message_unit "throw").msg).2 =
        .error (.other "int 42") ∧
      Action.close ∉
        (handle_client_iteration intrusive_server (message_unit "throw") upgraded_client).actions ∧
      (handle_client_iteration intrusive_server (message_unit "throw")
        upgraded_client).state.c.r.socket_is_open = true ∧
      (handle_client_iteration intrusive_server (message_unit "throw") upgraded_client).thrown =
        some (.other "int 42")) ∧
    ((intrusive_server.handle_websocket_message upgraded_client (message_unit "http").msg).2 =
        .ok () ∧
      (handle_client_iteration intrusive_server (message_unit "http")
        upgraded_client).state.c.is_websocket = false ∧
      Action.call_handle_request ∈
        (handle_client_iteration intrusive_server keep_alive_unit
          (handle_client_iteration intrusive_server (message_unit "http")
            upgraded_client).state.c).actions) :=
  ⟨rfl, ⟨rfl, by decide, rfl, rfl⟩, rfl, rfl, by decide⟩

end AsyncHTTP
